import Mathlib

/-
Verification of the ticket-retrieval subsystem (ZendeskClient.get_tickets in
src/zendesk_mcp_server/zendesk_client.py) against its specification.

The Python method is embedded shallowly as a pure Lean function:
  - the wall clock (datetime.now(timezone.utc)) becomes an explicit
    parameter "now", measured in whole seconds since the Unix epoch
    (the model works at second granularity; sub-second digits play no
    role in any property considered here);
  - the two possible HTTP responses (the parsed JSON bodies of
    GET /search.json and GET /tickets.json) become explicit parameters,
    typed records of the fields the code reads;
  - machine integers are Int (Python ints are unbounded, so no modular
    wrap is needed);
  - Python truthiness of Optional[str] values (None and the empty string
    are falsy) is modelled by pyTruthy.
-/

/-- Year, month and day for a count of days relative to 1970-01-01 in the
proleptic Gregorian calendar (the civil-from-days algorithm used by
standard datetime libraries). Floor division is used so the function is
correct on pre-1970 instants as well. -/
def civilFromDays (z0 : Int) : Int × Int × Int :=
  let z := z0 + 719468
  let era := Int.fdiv z 146097
  let doe := z - era * 146097
  let yoe := Int.fdiv (doe - Int.fdiv doe 1460 + Int.fdiv doe 36524 - Int.fdiv doe 146096) 365
  let y := yoe + era * 400
  let doy := doe - (365 * yoe + Int.fdiv yoe 4 - Int.fdiv yoe 100)
  let mp := Int.fdiv (5 * doy + 2) 153
  let d := doy - Int.fdiv (153 * mp + 2) 5 + 1
  let m := mp + (if mp < 10 then 3 else -9)
  (y + (if m ≤ 2 then 1 else 0), m, d)

/-- Two-digit zero padding of a calendar field. -/
def pad2 (n : Int) : String :=
  if n < 10 then "0" ++ toString n else toString n

/-- Four-digit zero padding of a year. -/
def pad4 (n : Int) : String :=
  if n < 10 then "000" ++ toString n
  else if n < 100 then "00" ++ toString n
  else if n < 1000 then "0" ++ toString n
  else toString n

/-- The date-time core YYYY-MM-DDTHH:MM:SS of a UTC instant given in whole
seconds since the Unix epoch. -/
def isoCore (t : Int) : String :=
  let days := Int.fdiv t 86400
  let sod := Int.fmod t 86400
  let ymd := civilFromDays days
  pad4 ymd.1 ++ "-" ++ pad2 ymd.2.1 ++ "-" ++ pad2 ymd.2.2 ++ "T" ++
    pad2 (Int.fdiv sod 3600) ++ ":" ++ pad2 (Int.fdiv (Int.fmod sod 3600) 60) ++ ":" ++
    pad2 (Int.fmod sod 60)

/-- The Python expression dt.isoformat().replace("+00:00", "Z") applied to an
aware UTC datetime at whole seconds. The isoformat is the date-time core
followed by "+00:00", and since the core contains no plus sign the replace
rewrites exactly that trailing offset, leaving the core with a "Z" suffix. -/
def pyIsoZ (t : Int) : String := isoCore t ++ "Z"

/-- Python truthiness of an Optional[str]: None and the empty string are
falsy, every other string is truthy. -/
def pyTruthy : Option String → Bool
  | none => false
  | some s => !s.isEmpty

/-- Python str.strip(): drop whitespace from both ends. Defined over the
character list so that it evaluates by kernel reduction; Python also
strips some rarer unicode whitespace, which no property here touches. -/
def pyStrip (s : String) : String :=
  ⟨((s.data.dropWhile Char.isWhitespace).reverse.dropWhile Char.isWhitespace).reverse⟩

/-- Python str.isdigit restricted to ASCII digits: nonempty and all
digits, over the character list so that it evaluates by kernel
reduction. -/
def pyIsdigit (s : String) : Bool :=
  !s.data.isEmpty && s.data.all Char.isDigit

/-- The keyword arguments of get_tickets, with the Python defaults. -/
structure GetTicketsArgs where
  page : Int := 1
  per_page : Int := 25
  sort_by : String := "created_at"
  sort_order : String := "desc"
  agent : Option String := none
  organization : Option String := none
  updated_since : Option String := none
  last_hours : Option Int := none
  stale_hours : Option Int := none
  include_solved : Bool := false
deriving DecidableEq

/-- A raw vendor ticket object: exactly the JSON fields the code reads via
item.get(...), each possibly missing. result_type is only meaningful for
search results; the listing endpoint never carries it and the code never
reads it there. -/
structure RawItem where
  result_type : Option String := none
  id : Option Int := none
  subject : Option String := none
  status : Option String := none
  priority : Option String := none
  description : Option String := none
  created_at : Option String := none
  updated_at : Option String := none
  requester_id : Option Int := none
  assignee_id : Option Int := none
  organization_id : Option Int := none
deriving DecidableEq

/-- The fields read from the parsed body of GET /search.json. -/
structure SearchData where
  results : List RawItem := []
  next_page : Option String := none
deriving DecidableEq

/-- The fields read from the parsed body of GET /tickets.json. -/
structure ListData where
  tickets : List RawItem := []
  next_page : Option String := none
  previous_page : Option String := none
deriving DecidableEq

/-- Normalized ticket projection built by both paths; a missing vendor
field stays none (Python None). -/
structure TicketSummary where
  id : Option Int
  subject : Option String
  status : Option String
  priority : Option String
  description : Option String
  created_at : Option String
  updated_at : Option String
  requester_id : Option Int
  assignee_id : Option Int
  organization_id : Option Int
deriving DecidableEq

/-- The filters sub-record echoed by the search path. -/
structure Filters where
  agent : Option String
  organization : Option String
  updated_since : Option String
  last_hours : Option Int
  stale_hours : Option Int
  include_solved : Bool
deriving DecidableEq

/-- The returned envelope. filters = none models the absence of the
"filters" key in the direct-listing dictionary. -/
structure TicketPage where
  tickets : List TicketSummary
  page : Int
  per_page : Int
  count : Nat
  sort_by : String
  sort_order : String
  filters : Option Filters
  has_more : Bool
  next_page : Option Int
  previous_page : Option Int
deriving DecidableEq

/-- The request sent to the vendor: endpoint path plus the params
dictionary, kept at their pre-serialization values (str() and urlencode
are plain serialization and are outside the model). query = none models
the absence of a query param on the direct-listing request. -/
structure RequestParams where
  endpoint : String
  query : Option String
  page : Int
  per_page : Int
  sort_by : String
  sort_order : String
deriving DecidableEq

/-- Line 129: if agent or organization or updated_since or last_hours is
not None or stale_hours is not None. String arguments are tested by Python
truthiness, integer arguments against None. -/
def useSearch (a : GetTicketsArgs) : Bool :=
  pyTruthy a.agent || pyTruthy a.organization || pyTruthy a.updated_since ||
    a.last_hours.isSome || a.stale_hours.isSome

/-- Lines 132-138: the agent filter tokens. A truthy agent is stripped;
if the stripped form is all digits an assignee_id token is emitted,
otherwise a quoted assignee token. -/
def agent_tokens : Option String → List String
  | none => []
  | some s =>
    if s.isEmpty then []
    else if pyIsdigit (pyStrip s) then ["assignee_id:" ++ pyStrip s]
    else ["assignee:\"" ++ pyStrip s ++ "\""]

/-- Lines 140-142: the organization filter token, quoted, stripped. -/
def org_tokens : Option String → List String
  | none => []
  | some s => if s.isEmpty then [] else ["organization:\"" ++ pyStrip s ++ "\""]

/-- Lines 146-149: updated_before is now minus stale_hours, ISO formatted
with a Z suffix, when stale_hours is present. -/
def updated_before (a : GetTicketsArgs) (now : Int) : Option String :=
  a.stale_hours.map (fun s => pyIsoZ (now - 3600 * s))

/-- Lines 153-154: unless the caller asked for solved tickets, stale
detection restricts to status below solved. -/
def status_tokens (a : GetTicketsArgs) : List String :=
  if a.stale_hours.isSome && !a.include_solved then ["status<solved"] else []

/-- Lines 157-159: last_hours overwrites updated_since with now minus
last_hours, same formatting; otherwise the caller value stands. -/
def effective_updated_since (a : GetTicketsArgs) (now : Int) : Option String :=
  match a.last_hours with
  | some h => some (pyIsoZ (now - 3600 * h))
  | none => a.updated_since

/-- Lines 161-162: the updated-before token, guarded by truthiness of
updated_before. -/
def before_tokens (a : GetTicketsArgs) (now : Int) : List String :=
  match updated_before a now with
  | none => []
  | some ub => if ub.isEmpty then [] else ["updated<" ++ ub]

/-- Lines 165-168: the updated-after token, guarded by truthiness of the
(possibly overwritten) updated_since, with the value stripped. -/
def since_tokens (a : GetTicketsArgs) (now : Int) : List String :=
  match effective_updated_since a now with
  | none => []
  | some us => if us.isEmpty then [] else ["updated>" ++ pyStrip us]

/-- Lines 130-172: the query parts, in the order the code appends them:
the fixed type restriction, then agent, organization, the status
exclusion, the updated-before bound and the updated-after bound. -/
def query_parts (a : GetTicketsArgs) (now : Int) : List String :=
  ["type:ticket"]
    ++ agent_tokens a.agent
    ++ org_tokens a.organization
    ++ status_tokens a
    ++ before_tokens a now
    ++ since_tokens a now

/-- Line 199: keep an entry iff its result_type is absent or "ticket". -/
def is_ticket_result (i : RawItem) : Bool :=
  i.result_type == none || i.result_type == some "ticket"

/-- Lines 202-213 and 255-266: the identical field-by-field projection of
a raw vendor object into a TicketSummary; a missing field stays none. -/
def summarize (i : RawItem) : TicketSummary :=
  { id := i.id
    subject := i.subject
    status := i.status
    priority := i.priority
    description := i.description
    created_at := i.created_at
    updated_at := i.updated_at
    requester_id := i.requester_id
    assignee_id := i.assignee_id
    organization_id := i.organization_id }

/-- The request get_tickets sends: lines 174-185 on the search path
(search.json with the joined query) and lines 236-242 on the direct path
(tickets.json, no query). Both send page, the capped per_page and the two
sort params. -/
def get_tickets_request (a : GetTicketsArgs) (now : Int) : RequestParams :=
  let pp := min a.per_page 100
  if useSearch a then
    { endpoint := "/search.json"
      query := some (String.intercalate " " (query_parts a now))
      page := a.page
      per_page := pp
      sort_by := a.sort_by
      sort_order := a.sort_order }
  else
    { endpoint := "/tickets.json"
      query := none
      page := a.page
      per_page := pp
      sort_by := a.sort_by
      sort_order := a.sort_order }

/-- ZendeskClient.get_tickets, lines 91-278, as a pure function of the
arguments, the current UTC time in epoch seconds and the parsed vendor
response of whichever endpoint the call reaches. -/
def get_tickets (a : GetTicketsArgs) (now : Int) (sd : SearchData) (ld : ListData) :
    TicketPage :=
  let pp := min a.per_page 100
  if useSearch a then
    let ticket_list := (sd.results.filter is_ticket_result).map summarize
    { tickets := ticket_list
      page := a.page
      per_page := pp
      count := ticket_list.length
      sort_by := a.sort_by
      sort_order := a.sort_order
      filters := some
        { agent := a.agent
          organization := a.organization
          updated_since := effective_updated_since a now
          last_hours := a.last_hours
          stale_hours := a.stale_hours
          include_solved := a.include_solved }
      has_more := sd.next_page.isSome
      next_page := if pyTruthy sd.next_page then some (a.page + 1) else none
      previous_page := if 1 < a.page then some (a.page - 1) else none }
  else
    let ticket_list := ld.tickets.map summarize
    { tickets := ticket_list
      page := a.page
      per_page := pp
      count := ticket_list.length
      sort_by := a.sort_by
      sort_order := a.sort_order
      filters := none
      has_more := ld.next_page.isSome
      next_page := if pyTruthy ld.next_page then some (a.page + 1) else none
      previous_page :=
        if pyTruthy ld.previous_page && decide (1 < a.page) then some (a.page - 1)
        else none }

/-- A formatted timestamp is never the empty string, so the Python
truthiness guards on updated_before and updated_since always pass for
computed values. -/
theorem pyIsoZ_isEmpty (t : Int) : (pyIsoZ t).isEmpty = false := by
  rw [Bool.eq_false_iff]
  intro h
  have h2 : pyIsoZ t = "" := (String.isEmpty_iff _).mp h
  have h3 := congrArg String.length h2
  rw [pyIsoZ, String.length_append] at h3
  have h4 : ("Z" : String).length = 1 := rfl
  rw [h4] at h3
  simp at h3

/-- Characters of a prefix survive appending. -/
theorem data_getElem_append (p q : String) (i : Nat) (c : Char)
    (h : p.data[i]? = some c) : (p ++ q).data[i]? = some c := by
  have hi : i < p.data.length := (List.getElem?_eq_some.mp h).1
  rw [String.data_append, List.getElem?_append, if_pos hi, h]

/-- Two strings that extend prefixes differing at some character index are
different. -/
theorem append_ne_append_of_char (p q s t : String) (i : Nat) (c d : Char)
    (hp : p.data[i]? = some c) (hq : q.data[i]? = some d) (hcd : c ≠ d) :
    p ++ s ≠ q ++ t := by
  intro h
  have h1 := data_getElem_append p s i c hp
  have h2 := data_getElem_append q t i d hq
  rw [h, h2] at h1
  exact hcd (Option.some.inj h1).symm

/-- A string extending a prefix differs from any literal with a different
character at some index of that prefix. -/
theorem append_ne_of_char (p q s : String) (i : Nat) (c d : Char)
    (hp : p.data[i]? = some c) (hq : q.data[i]? = some d) (hcd : c ≠ d) :
    p ++ s ≠ q := by
  intro h
  have h1 := data_getElem_append p s i c hp
  rw [h, hq] at h1
  exact hcd (Option.some.inj h1).symm

/-- Every agent token starts with assignee_id: or with assignee:". -/
theorem mem_agent_tokens (o : Option String) (x : String)
    (h : x ∈ agent_tokens o) :
    (∃ t, x = "assignee_id:" ++ t) ∨ (∃ t, x = "assignee:\"" ++ t) := by
  match o with
  | none => simp [agent_tokens] at h
  | some s =>
    rw [agent_tokens] at h
    split at h
    · simp at h
    · split at h
      · simp at h
        exact Or.inl ⟨pyStrip s, h⟩
      · simp at h
        exact Or.inr ⟨pyStrip s ++ "\"", by rw [h, String.append_assoc]⟩

/-- Every organization token starts with organization:". -/
theorem mem_org_tokens (o : Option String) (x : String)
    (h : x ∈ org_tokens o) : ∃ t, x = "organization:\"" ++ t := by
  match o with
  | none => simp [org_tokens] at h
  | some s =>
    rw [org_tokens] at h
    split at h
    · simp at h
    · simp at h
      exact ⟨pyStrip s ++ "\"", by rw [h, String.append_assoc]⟩

/-- The status sublist only ever holds the status exclusion token. -/
theorem mem_status_tokens (a : GetTicketsArgs) (x : String)
    (h : x ∈ status_tokens a) : x = "status<solved" := by
  rw [status_tokens] at h
  split at h <;> simp at h
  exact h

/-- Every updated-before token starts with updated<. -/
theorem mem_before_tokens (a : GetTicketsArgs) (now : Int) (x : String)
    (h : x ∈ before_tokens a now) : ∃ t, x = "updated<" ++ t := by
  rw [before_tokens] at h
  split at h
  · simp at h
  · split at h
    · simp at h
    · simp at h
      exact ⟨_, h⟩

/-- Every updated-after token starts with updated>. -/
theorem mem_since_tokens (a : GetTicketsArgs) (now : Int) (x : String)
    (h : x ∈ since_tokens a now) : ∃ t, x = "updated>" ++ t := by
  rw [since_tokens] at h
  split at h
  · simp at h
  · split at h
    · simp at h
    · simp at h
      exact ⟨_, h⟩


/-- Both the request and the envelope expose per_page as the capped value
min(per_page, 100), on either path. -/
theorem per_page_sent (a : GetTicketsArgs) (now : Int) (sd : SearchData)
    (ld : ListData) :
    (get_tickets_request a now).per_page = min a.per_page 100
    ∧ (get_tickets a now sd ld).per_page = min a.per_page 100 := by
  constructor <;> by_cases h : useSearch a <;>
    simp [get_tickets_request, get_tickets, h]

/-- C1: if any of agent, organization, updated_since (supplied as a
non-empty value), last_hours, stale_hours (supplied as a non-None value)
is given, get_tickets takes the search path and the envelope carries the
filters sub-record; if none is given it takes the direct-listing path and
no filters key appears. useSearch is the literal disjunction of line 129. -/
theorem get_tickets_routing_filters (a : GetTicketsArgs) (now : Int)
    (sd : SearchData) (ld : ListData) :
    (get_tickets a now sd ld).filters.isSome = useSearch a
    ∧ (get_tickets_request a now).endpoint =
        (if useSearch a then "/search.json" else "/tickets.json")
    ∧ (get_tickets_request a now).query.isSome = useSearch a := by
  by_cases h : useSearch a <;> simp [get_tickets, get_tickets_request, h]

/-- C2: when last_hours is supplied, the effective updated_since used in
the updated-after query token and echoed in the filters record is
now minus last_hours in ISO-8601 UTC with a Z suffix, whatever
updated_since the caller passed (the statement quantifies over all
argument records with last_hours set, hence over every caller value of
updated_since). -/
theorem get_tickets_last_hours_overrides (a : GetTicketsArgs) (now : Int)
    (sd : SearchData) (ld : ListData) (h : Int) (hl : a.last_hours = some h) :
    ("updated>" ++ pyStrip (pyIsoZ (now - 3600 * h))) ∈ query_parts a now
    ∧ Option.map Filters.updated_since (get_tickets a now sd ld).filters =
        some (some (pyIsoZ (now - 3600 * h)))
    ∧ ∃ p, pyIsoZ (now - 3600 * h) = p ++ "Z" := by
  have hs : useSearch a = true := by simp [useSearch, hl]
  refine ⟨?_, ?_, ⟨isoCore (now - 3600 * h), rfl⟩⟩
  · simp [query_parts, since_tokens, effective_updated_since, hl, pyIsoZ_isEmpty]
  · simp [get_tickets, hs, effective_updated_since, hl]

theorem get_tickets_last_hours_overrides_witness :
    ("updated>" ++ pyStrip (pyIsoZ (0 - 3600 * 2))) ∈
        query_parts { updated_since := some "2024-01-01", last_hours := some 2 } 0
    ∧ Option.map Filters.updated_since
        (get_tickets { updated_since := some "2024-01-01", last_hours := some 2 } 0 {} {}).filters =
        some (some (pyIsoZ (0 - 3600 * 2)))
    ∧ ∃ p, pyIsoZ (0 - 3600 * 2) = p ++ "Z" :=
  get_tickets_last_hours_overrides
    { updated_since := some "2024-01-01", last_hours := some 2 } 0 {} {} 2 rfl

/-- C3: previous_page is computed asymmetrically: the search path sets it
to page - 1 exactly when page exceeds 1, ignoring the vendor response
(the right-hand side mentions neither response), while the direct path
additionally requires the vendor previous_page field to be truthy. -/
theorem get_tickets_previous_page_asymmetry (a : GetTicketsArgs) (now : Int)
    (sd : SearchData) (ld : ListData) :
    (useSearch a = true →
      (get_tickets a now sd ld).previous_page =
        (if 1 < a.page then some (a.page - 1) else none))
    ∧ (useSearch a = false →
      (get_tickets a now sd ld).previous_page =
        (if pyTruthy ld.previous_page = true ∧ 1 < a.page then some (a.page - 1)
         else none)) := by
  constructor <;> intro h <;> simp [get_tickets, h]

theorem get_tickets_previous_page_asymmetry_witness :
    (get_tickets { page := 5, agent := some "x" } 0 {} {}).previous_page = some 4
    ∧ (get_tickets { page := 5 } 0 {} { previous_page := some "u" }).previous_page =
        some 4
    ∧ (get_tickets { page := 5 } 0 {} {}).previous_page = none := by
  refine ⟨?_, ?_, ?_⟩
  · have h :=
      (get_tickets_previous_page_asymmetry { page := 5, agent := some "x" } 0 {} {}).1
        (by decide)
    rw [h]; decide
  · have h :=
      (get_tickets_previous_page_asymmetry { page := 5 } 0 {}
        { previous_page := some "u" }).2 (by decide)
    rw [h]; decide
  · have h := (get_tickets_previous_page_asymmetry { page := 5 } 0 {} {}).2 (by decide)
    rw [h]; decide

/-- C4: the per_page value sent to the vendor and echoed in the envelope
never exceeds 100, and any caller value above 100 is clamped to exactly
100. -/
theorem get_tickets_per_page_capped (a : GetTicketsArgs) (now : Int)
    (sd : SearchData) (ld : ListData) :
    (get_tickets_request a now).per_page ≤ 100
    ∧ (get_tickets a now sd ld).per_page ≤ 100
    ∧ (100 < a.per_page →
        (get_tickets_request a now).per_page = 100
        ∧ (get_tickets a now sd ld).per_page = 100) := by
  obtain ⟨h1, h2⟩ := per_page_sent a now sd ld
  refine ⟨?_, ?_, fun hgt => ⟨?_, ?_⟩⟩
  · rw [h1]; exact min_le_right _ _
  · rw [h2]; exact min_le_right _ _
  · rw [h1]; exact min_eq_right (le_of_lt hgt)
  · rw [h2]; exact min_eq_right (le_of_lt hgt)

theorem get_tickets_per_page_capped_witness :
    (get_tickets_request { per_page := 250 } 0).per_page = 100
    ∧ (get_tickets { per_page := 250 } 0 {} {}).per_page = 100 :=
  (get_tickets_per_page_capped { per_page := 250 } 0 {} {}).2.2 (by decide)

/-- C5: on the search path, the returned tickets are exactly the vendor
results whose result_type is absent or "ticket", each projected
field-by-field into a TicketSummary (a missing vendor field stays none,
since summarize is the identity on each optional field). -/
theorem get_tickets_search_result_filtering (a : GetTicketsArgs) (now : Int)
    (sd : SearchData) (ld : ListData) (hs : useSearch a = true) :
    (get_tickets a now sd ld).tickets =
      (sd.results.filter
        (fun i => i.result_type == none || i.result_type == some "ticket")).map
        summarize
    ∧ ∀ i : RawItem, summarize i =
        { id := i.id, subject := i.subject, status := i.status,
          priority := i.priority, description := i.description,
          created_at := i.created_at, updated_at := i.updated_at,
          requester_id := i.requester_id, assignee_id := i.assignee_id,
          organization_id := i.organization_id } := by
  constructor
  · simp only [get_tickets, hs, if_true]
    rfl
  · intro i; rfl

theorem get_tickets_search_result_filtering_witness :
    (get_tickets { agent := some "x" } 0
        { results := [{ result_type := some "user", id := some 1 },
                      { id := some 2 }, { result_type := some "ticket", id := some 3 }] }
        {}).tickets =
      [summarize { id := some 2 }, summarize { result_type := some "ticket", id := some 3 }] := by
  have h :=
    (get_tickets_search_result_filtering { agent := some "x" } 0
      { results := [{ result_type := some "user", id := some 1 },
                    { id := some 2 }, { result_type := some "ticket", id := some 3 }] }
      {} (by decide)).1
  rw [h]; decide

/-- C6: with both stale_hours and last_hours supplied, the query holds an
updated-before token built from now minus stale_hours and an
updated-after token built from now minus last_hours at the same time. -/
theorem get_tickets_stale_and_last_window (a : GetTicketsArgs) (now : Int)
    (s h : Int) (hst : a.stale_hours = some s) (hl : a.last_hours = some h) :
    ("updated<" ++ pyIsoZ (now - 3600 * s)) ∈ query_parts a now
    ∧ ("updated>" ++ pyStrip (pyIsoZ (now - 3600 * h))) ∈ query_parts a now := by
  constructor
  · simp [query_parts, before_tokens, updated_before, hst, pyIsoZ_isEmpty]
  · simp [query_parts, since_tokens, effective_updated_since, hl, pyIsoZ_isEmpty]

theorem get_tickets_stale_and_last_window_witness :
    ("updated<" ++ pyIsoZ (0 - 3600 * 24)) ∈
        query_parts { last_hours := some 6, stale_hours := some 24 } 0
    ∧ ("updated>" ++ pyStrip (pyIsoZ (0 - 3600 * 6))) ∈
        query_parts { last_hours := some 6, stale_hours := some 24 } 0 :=
  get_tickets_stale_and_last_window { last_hours := some 6, stale_hours := some 24 }
    0 24 6 rfl rfl

/-- C7: with stale_hours supplied, the query holds the status exclusion
token exactly when include_solved is false; when include_solved is true
no token of the query equals it. -/
theorem get_tickets_status_exclusion (a : GetTicketsArgs) (now : Int) (s : Int)
    (hst : a.stale_hours = some s) :
    (a.include_solved = false → "status<solved" ∈ query_parts a now)
    ∧ (a.include_solved = true → "status<solved" ∉ query_parts a now) := by
  constructor
  · intro hin
    simp [query_parts, status_tokens, hst, hin]
  · intro hin hmem
    rw [query_parts] at hmem
    have hstat : status_tokens a = [] := by
      simp [status_tokens, hin]
    rw [hstat] at hmem
    rcases List.mem_append.mp hmem with hmem | h
    swap
    · obtain ⟨t, ht⟩ := mem_since_tokens _ _ _ h
      exact append_ne_of_char "updated>" "status<solved" t 0 'u' 's' rfl rfl
        (by decide) ht.symm
    rcases List.mem_append.mp hmem with hmem | h
    swap
    · obtain ⟨t, ht⟩ := mem_before_tokens _ _ _ h
      exact append_ne_of_char "updated<" "status<solved" t 0 'u' 's' rfl rfl
        (by decide) ht.symm
    rcases List.mem_append.mp hmem with hmem | h
    swap
    · simp at h
    rcases List.mem_append.mp hmem with hmem | h
    swap
    · obtain ⟨t, ht⟩ := mem_org_tokens _ _ h
      exact append_ne_of_char "organization:\"" "status<solved" t 0 'o' 's' rfl rfl
        (by decide) ht.symm
    rcases List.mem_append.mp hmem with h | h
    · exact absurd (List.mem_singleton.mp h) (by decide)
    · rcases mem_agent_tokens _ _ h with ⟨t, ht⟩ | ⟨t, ht⟩
      · exact append_ne_of_char "assignee_id:" "status<solved" t 0 'a' 's' rfl rfl
          (by decide) ht.symm
      · exact append_ne_of_char "assignee:\"" "status<solved" t 0 'a' 's' rfl rfl
          (by decide) ht.symm

theorem get_tickets_status_exclusion_witness :
    "status<solved" ∈ query_parts { stale_hours := some 24 } 0
    ∧ "status<solved" ∉
        query_parts { stale_hours := some 24, include_solved := true } 0 :=
  ⟨(get_tickets_status_exclusion { stale_hours := some 24 } 0 24 rfl).1 rfl,
   (get_tickets_status_exclusion { stale_hours := some 24, include_solved := true }
      0 24 rfl).2 rfl⟩

/-- C8: a supplied (truthy) agent whose stripped value is all digits
yields the exact assignee-ID token and no quoted assignee token anywhere
in the query; otherwise the quoted assignee token is emitted. -/
theorem get_tickets_agent_token (a : GetTicketsArgs) (now : Int) (g : String)
    (hg : a.agent = some g) (hne : g.isEmpty = false) :
    (pyIsdigit (pyStrip g) = true →
      ("assignee_id:" ++ pyStrip g) ∈ query_parts a now
      ∧ ∀ u, ("assignee:\"" ++ u) ∉ query_parts a now)
    ∧ (pyIsdigit (pyStrip g) = false →
      ("assignee:\"" ++ pyStrip g ++ "\"") ∈ query_parts a now) := by
  constructor
  · intro hd
    constructor
    · simp [query_parts, agent_tokens, hg, hne, hd]
    · intro u hmem
      rw [query_parts] at hmem
      rcases List.mem_append.mp hmem with hmem | h
      swap
      · obtain ⟨t, ht⟩ := mem_since_tokens _ _ _ h
        exact append_ne_append_of_char "assignee:\"" "updated>" u t 0 'a' 'u' rfl rfl
          (by decide) ht
      rcases List.mem_append.mp hmem with hmem | h
      swap
      · obtain ⟨t, ht⟩ := mem_before_tokens _ _ _ h
        exact append_ne_append_of_char "assignee:\"" "updated<" u t 0 'a' 'u' rfl rfl
          (by decide) ht
      rcases List.mem_append.mp hmem with hmem | h
      swap
      · exact append_ne_of_char "assignee:\"" "status<solved" u 0 'a' 's' rfl rfl
          (by decide) (mem_status_tokens _ _ h)
      rcases List.mem_append.mp hmem with hmem | h
      swap
      · obtain ⟨t, ht⟩ := mem_org_tokens _ _ h
        exact append_ne_append_of_char "assignee:\"" "organization:\"" u t 0 'a' 'o' rfl rfl
          (by decide) ht
      rcases List.mem_append.mp hmem with h | h
      · exact append_ne_of_char "assignee:\"" "type:ticket" u 0 'a' 't' rfl rfl
          (by decide) (List.mem_singleton.mp h)
      · have hag : agent_tokens a.agent = ["assignee_id:" ++ pyStrip g] := by
          simp [agent_tokens, hg, hne, hd]
        rw [hag] at h
        exact append_ne_append_of_char "assignee:\"" "assignee_id:" u (pyStrip g) 8 ':' '_'
          rfl rfl (by decide) (List.mem_singleton.mp h)
  · intro hd
    simp [query_parts, agent_tokens, hg, hne, hd]

theorem get_tickets_agent_token_witness :
    ("assignee_id:" ++ pyStrip "12345") ∈
        query_parts { agent := some "12345" } 0
    ∧ ("assignee:\"" ++ pyStrip "Jane Doe" ++ "\"") ∈
        query_parts { agent := some "Jane Doe" } 0 :=
  ⟨((get_tickets_agent_token { agent := some "12345" } 0 "12345" rfl
      (by decide)).1 (by decide)).1,
   (get_tickets_agent_token { agent := some "Jane Doe" } 0 "Jane Doe" rfl
      (by decide)).2 (by decide)⟩

/-- C9 fails on the code: when the vendor search response carries a
next_page field that is present but empty, line 230 (is not None) makes
has_more true while line 231 (truthiness) leaves next_page absent, so
next_page does not equal page + 1 under the same condition that drives
has_more. -/
theorem get_tickets_next_page_counterexample :
    (get_tickets { agent := some "x" } 0 { next_page := some "" } {}).has_more = true
    ∧ (get_tickets { agent := some "x" } 0 { next_page := some "" } {}).next_page =
        none := by
  decide

/-- C9 amended: has_more is true iff the vendor next_page field is
present (non-null), while next_page is page + 1 iff the vendor next_page
field is truthy (non-null and non-empty) and is absent otherwise; the two
conditions coincide except when the vendor returns a present-but-empty
next_page value. Both paths behave this way over their own response. -/
theorem get_tickets_pagination_flags (a : GetTicketsArgs) (now : Int)
    (sd : SearchData) (ld : ListData) :
    (get_tickets a now sd ld).has_more =
      (if useSearch a then sd.next_page.isSome else ld.next_page.isSome)
    ∧ (get_tickets a now sd ld).next_page =
      (if useSearch a then
        (if pyTruthy sd.next_page then some (a.page + 1) else none)
       else
        (if pyTruthy ld.next_page then some (a.page + 1) else none)) := by
  by_cases h : useSearch a <;> simp [get_tickets, h]

/-- C10: no lower bound is enforced on per_page; every caller value at
most 100, zero and negative values included, reaches the vendor and the
envelope unchanged, min(per_page, 100) being the only adjustment. -/
theorem get_tickets_per_page_no_lower_bound (a : GetTicketsArgs) (now : Int)
    (sd : SearchData) (ld : ListData) (h : a.per_page ≤ 100) :
    (get_tickets_request a now).per_page = a.per_page
    ∧ (get_tickets a now sd ld).per_page = a.per_page := by
  obtain ⟨h1, h2⟩ := per_page_sent a now sd ld
  rw [h1, h2]
  exact ⟨min_eq_left h, min_eq_left h⟩

theorem get_tickets_per_page_no_lower_bound_witness :
    (get_tickets_request { per_page := -7 } 0).per_page = -7
    ∧ (get_tickets { per_page := -7 } 0 {} {}).per_page = -7 :=
  get_tickets_per_page_no_lower_bound { per_page := -7 } 0 {} {} (by decide)
